import Mathlib

/-!
Verification development for the mosques-workflow metering ETL pipeline.

The definitions below are a shallow embedding of the Python sources
`src/include/etl_processor.py` and `src/include/cloud_loader.py`:
pure helper functions become Lean functions, Python dicts become
insertion-ordered association lists with Python-dict insert/lookup
semantics, and the stateful BigQuery loader becomes explicit state
passing over a small state type.  External effects (the Gemini mapping
oracle, GCS upload, BigQuery jobs) are parameters or injected outcomes,
so every definition stays executable.
-/

namespace Mosques

/-! ## Python string helpers

`pyStrip` models Python `str.strip()` (drop leading/trailing whitespace)
and `pyUpper` models `str.upper()` over the ASCII headers this pipeline
handles.  `normHeader` is the ubiquitous `h.strip().upper()` idiom of
`etl_processor.py`. -/

def pyStrip (s : String) : String :=
  ⟨((s.data.dropWhile (·.isWhitespace)).reverse.dropWhile (·.isWhitespace)).reverse⟩

def pyUpper (s : String) : String :=
  ⟨s.data.map Char.toUpper⟩

def normHeader (s : String) : String :=
  pyUpper (pyStrip s)

/-! ## Python dict model

Python dicts preserve insertion order; writing to an existing key
updates the value in place, writing a fresh key appends.  We model a
dict as a `List (String × String)` with unique keys maintained by
`dictInsert`. -/

def dictInsert (m : List (String × String)) (k v : String) : List (String × String) :=
  if m.any (fun p => p.1 == k) then
    m.map (fun p => if p.1 == k then (k, v) else p)
  else
    m ++ [(k, v)]

def dictFind? (m : List (String × String)) (k : String) : Option String :=
  (m.find? (fun p => p.1 == k)).map (·.2)

def dictGet (m : List (String × String)) (k d : String) : String :=
  (dictFind? m k).getD d

/-! ## Configuration constants (etl_processor.py lines 33-56) -/

def EXPECTED_HEADERS : List String :=
  ["METER_ID", "ID", "METER_NO", "DATA_TIME",
   "IMPORT_ACTIVE_POWER", "IMPORT_REACTIVE_POWER", "IMPORT_APPARENT_POWER",
   "REACTIVE_POWER_IMPORT", "EXPORT_ACTIVE_POWER", "EXPORT_REACTIVE_POWER",
   "EXPORT_APPARENT_POWER", "REACTIVE_POWER_EXPORT", "IMPORT_FACTOR_POWER",
   "EXPORT_FACTOR_POWER", "STATUS"]

def IMPORTANT_COLUMNS : List String :=
  ["METER_ID", "DATA_TIME", "IMPORT_ACTIVE_POWER"]

/-- The fixed alias table of `try_deterministic_important_mapping`
(etl_processor.py lines 331-338); `column_variations.get(c, [c])`. -/
def column_variations (c : String) : List String :=
  if c = "METER_ID" then
    ["METER_ID", "METERID", "METER", "MTR_ID", "ID_METER"]
  else if c = "DATA_TIME" then
    ["DATA_TIME", "DATATIME", "DATETIME", "DATE_TIME", "READING_DATETIME",
     "READ_TIME", "TIMESTAMP", "TIME", "DT", "READING_TIME", "READ_DATETIME"]
  else if c = "IMPORT_ACTIVE_POWER" then
    ["IMPORT_ACTIVE_POWER", "IMPORTACTIVEPOWER", "ACTIVE_IMPORT_POWER",
     "ACTIVE_IMP_POWER", "IMP_ACTIVE_POWER", "IMPORT_POWER",
     "ACTIVE_POWER", "KW_IMPORT", "KW_IMP", "POWER_IMPORT"]
  else [c]

/-- The dict comprehension `{h.strip().upper(): h for h in headers}`
followed by a key lookup: a later header with the same normalized name
overwrites an earlier one, so lookup returns the last such header. -/
def headerLookup (headers : List String) (k : String) : Option String :=
  headers.reverse.find? (fun h => normHeader h == k)

/-- Inner loop of `try_deterministic_important_mapping`: scan the
variation list of one important column and return the first actual
header whose normalized name matches a variation. -/
def firstVariationMatch (headers : List String) (vs : List String) : Option String :=
  vs.findSome? (fun v => headerLookup headers (normHeader v))

/-- `try_deterministic_important_mapping` (etl_processor.py lines 325-363):
matches every important column against the alias table; an entry is
recorded only when the matched header differs from the target name;
returns `none` when any important column has no match. -/
def try_deterministic_important_mapping
    (headers : List String) : List String → Option (List (String × String))
  | [] => some []
  | c :: cols =>
    match firstVariationMatch headers (column_variations c) with
    | none => none
    | some actual =>
      (try_deterministic_important_mapping headers cols).map
        (fun m => if actual = c then m else (actual, c) :: m)

/-- `validate_and_fix_mapping` (etl_processor.py lines 294-322): keep
entries whose incoming column exists verbatim, case-correct entries
whose normalized incoming column exists, drop the rest. -/
def validate_and_fix_mapping
    (mapping : List (String × String)) (headers : List String) :
    List (String × String) :=
  mapping.foldl
    (fun acc p =>
      if headers.contains p.1 then dictInsert acc p.1 p.2
      else
        match headerLookup headers (normHeader p.1) with
        | some actual => dictInsert acc actual p.2
        | none => acc)
    []

/-- `final_headers = [mapping.get(h, h) for h in current_headers]`. -/
def applyMapping (m : List (String × String)) (headers : List String) : List String :=
  headers.map (fun h => dictGet m h h)

/-- Structured result of the important-columns oracle
(`map_important_columns_with_gemini` after its array-to-dict
conversion): a status in {SUCCESS, PARTIAL, FAILED} and a raw→target
mapping. -/
structure OracleImportantResult where
  status : String
  mapping : List (String × String)
deriving DecidableEq

/-- Structured result of the full-schema oracle
(`validate_schema_with_gemini`): a status in {MATCH, RENAME, ABORT} and
an optional rename mapping. -/
structure OracleFullResult where
  status : String
  mapping : List (String × String)
deriving DecidableEq

/-- Return value of `determine_schema_mapping` (the `reason` string is
not modelled; no claim concerns it). -/
structure SchemaResult where
  mapping : List (String × String)
  important_only : Bool
deriving DecidableEq

deriving instance DecidableEq for Except

/-- Result of the resolver together with which oracles were consulted. -/
structure ResolveOutcome where
  result : Except String SchemaResult
  importantOracleCalled : Bool
  fullOracleCalled : Bool
deriving DecidableEq

def eqAsSet (a b : List String) : Bool :=
  a.all (fun x => b.contains x) && b.all (fun x => a.contains x)

/-- Oracle important-columns branch of `determine_schema_mapping`
(etl_processor.py lines 402-435): validate the oracle mapping, then
accept it (`important_only=True`) when the status is SUCCESS, or the
mapped values equal the important-column set, or the important columns
are a subset of the mapped values of at least the required cardinality. -/
def importantOracleStep
    (ir : OracleImportantResult) (headers : List String) : Option SchemaResult :=
  if ir.status == "SUCCESS"
      || eqAsSet ((validate_and_fix_mapping ir.mapping headers).map Prod.snd)
           IMPORTANT_COLUMNS then
    some ⟨validate_and_fix_mapping ir.mapping headers, true⟩
  else if IMPORTANT_COLUMNS.dedup.length
            ≤ ((validate_and_fix_mapping ir.mapping headers).map Prod.snd).dedup.length
          && IMPORTANT_COLUMNS.all (fun c =>
              ((validate_and_fix_mapping ir.mapping headers).map Prod.snd).contains c) then
    some ⟨validate_and_fix_mapping ir.mapping headers, true⟩
  else
    none

/-- Full-schema oracle branch of `determine_schema_mapping`
(etl_processor.py lines 439-468): ABORT is fatal; otherwise validate the
rename mapping, apply it, and fail on duplicate resulting names
(`len(final) != len(set(final))`) or missing expected columns. -/
def fullOracleStep
    (v : OracleFullResult) (headers expected : List String) :
    Except String SchemaResult :=
  if v.status == "ABORT" then
    .error "Schema validation ABORT"
  else if (applyMapping (validate_and_fix_mapping
        (if v.status == "RENAME" then v.mapping else []) headers)
        headers).dedup.length ≠
      (applyMapping (validate_and_fix_mapping
        (if v.status == "RENAME" then v.mapping else []) headers)
        headers).length then
    .error "Duplicate column names after mapping"
  else if expected.any (fun e =>
      !((applyMapping (validate_and_fix_mapping
          (if v.status == "RENAME" then v.mapping else []) headers)
          headers).contains e)) then
    .error "Missing expected columns after mapping"
  else
    .ok ⟨validate_and_fix_mapping
      (if v.status == "RENAME" then v.mapping else []) headers, false⟩

/-- `determine_schema_mapping` (etl_processor.py lines 366-468).  The
two Gemini calls are passed in as oracle functions; the outcome records
whether each was invoked.  Path order: exact case-insensitive match,
deterministic alias mapping, oracle important-columns mapping, oracle
full-schema mapping. -/
def determine_schema_mapping
    (orImportant : List String → OracleImportantResult)
    (orFull : List String → OracleFullResult)
    (current expected : List String) : ResolveOutcome :=
  if current.map normHeader = expected.map normHeader then
    ⟨.ok ⟨[], false⟩, false, false⟩
  else
    match try_deterministic_important_mapping current IMPORTANT_COLUMNS with
    | some m => ⟨.ok ⟨m, true⟩, false, false⟩
    | none =>
      match importantOracleStep (orImportant current) current with
      | some r => ⟨.ok r, true, false⟩
      | none => ⟨fullOracleStep (orFull current) current expected, true, true⟩

/-- Concrete oracle stub: important-columns oracle that maps nothing. -/
def stubImportantOracle : List String → OracleImportantResult :=
  fun _ => ⟨"FAILED", []⟩

/-- Concrete oracle stub: full-schema oracle that reports ABORT. -/
def stubAbortOracle : List String → OracleFullResult :=
  fun _ => ⟨"ABORT", []⟩

/-- Concrete oracle stub: full-schema oracle renaming WEIRD_TS to
DATA_TIME. -/
def stubRenameOracle : List String → OracleFullResult :=
  fun _ => ⟨"RENAME", [("WEIRD_TS", "DATA_TIME")]⟩

/-! ## Separator detection (etl_processor.py lines 81-111)

`detect_csv_separator` counts the occurrences of comma, semicolon, tab
and pipe in the (stripped) first line, takes Python
`max(separators, key=separators.get)` — which keeps the first key in
insertion order on ties, since `max` only replaces on a strictly larger
value — and falls back to comma when the best count is zero. -/

def sepCandidates : List Char := [',', ';', '\t', '|']

def detect_csv_separator (headerLine : String) : Char :=
  let cnt := fun (c : Char) => headerLine.data.count c
  let detected := [';', '\t', '|'].foldl
    (fun best c => if cnt best < cnt c then c else best) ','
  if 0 < cnt detected then detected else ','

/-! ## Timestamps

`build_lazy_pipeline` (etl_processor.py lines 564-582) parses the
`DATA_TIME` column with `pl.coalesce` over three `strptime` attempts
(`strict=False`, so a failed parse yields null): the string with a
trailing `.digits` fraction stripped parsed as `%Y-%m-%d %H:%M:%S`, the
raw string parsed the same way, and the raw string parsed as date-only
`%Y-%m-%d`; the coalesced value is truncated to the minute.  The parsers
below model chrono's whole-string format matching with calendar
validation. -/

structure PDateTime where
  year : Nat
  month : Nat
  day : Nat
  hour : Nat
  minute : Nat
  second : Nat
deriving DecidableEq

def digitVal (c : Char) : Nat := c.toNat - 48

def isLeapYear (y : Nat) : Bool :=
  (y % 4 == 0 && y % 100 != 0) || y % 400 == 0

def daysInMonth (y m : Nat) : Nat :=
  if m = 2 then (if isLeapYear y then 29 else 28)
  else if m = 4 ∨ m = 6 ∨ m = 9 ∨ m = 11 then 30
  else 31

def validDate (y m d : Nat) : Bool :=
  1 ≤ m && m ≤ 12 && 1 ≤ d && d ≤ daysInMonth y m

/-- Parse `%Y-%m-%d %H:%M:%S` against the whole character list. -/
def parseFullChars : List Char → Option PDateTime
  | [y1, y2, y3, y4, '-', m1, m2, '-', d1, d2, ' ',
     h1, h2, ':', n1, n2, ':', s1, s2] =>
    if [y1, y2, y3, y4, m1, m2, d1, d2, h1, h2, n1, n2, s1, s2].all Char.isDigit then
      let y := ((digitVal y1 * 10 + digitVal y2) * 10 + digitVal y3) * 10 + digitVal y4
      let mo := digitVal m1 * 10 + digitVal m2
      let da := digitVal d1 * 10 + digitVal d2
      let ho := digitVal h1 * 10 + digitVal h2
      let mi := digitVal n1 * 10 + digitVal n2
      let se := digitVal s1 * 10 + digitVal s2
      if validDate y mo da && ho < 24 && mi < 60 && se < 60 then
        some ⟨y, mo, da, ho, mi, se⟩
      else none
    else none
  | _ => none

/-- Parse `%Y-%m-%d` against the whole character list (midnight). -/
def parseDateOnlyChars : List Char → Option PDateTime
  | [y1, y2, y3, y4, '-', m1, m2, '-', d1, d2] =>
    if [y1, y2, y3, y4, m1, m2, d1, d2].all Char.isDigit then
      let y := ((digitVal y1 * 10 + digitVal y2) * 10 + digitVal y3) * 10 + digitVal y4
      let mo := digitVal m1 * 10 + digitVal m2
      let da := digitVal d1 * 10 + digitVal d2
      if validDate y mo da then some ⟨y, mo, da, 0, 0, 0⟩ else none
    else none
  | _ => none

def parseFullTs (s : String) : Option PDateTime := parseFullChars s.data

def parseDateOnly (s : String) : Option PDateTime := parseDateOnlyChars s.data

/-- `str.replace(r"\.\d+$", "")`: drop a trailing dot-plus-digits
suffix when present (the regex is end-anchored, so it matches exactly
the last dot followed only by digits). -/
def stripFrac (s : String) : String :=
  let rcs := s.data.reverse
  match rcs.takeWhile Char.isDigit, rcs.dropWhile Char.isDigit with
  | [], _ => s
  | _ :: _, '.' :: rest => ⟨rest.reverse⟩
  | _, _ => s

/-- The `pl.coalesce` of the three `strptime` attempts. -/
def parseDataTime (s : String) : Option PDateTime :=
  (parseFullTs (stripFrac s)) <|> parseFullTs s <|> parseDateOnly s

/-- `.dt.truncate("1m")`: zero out the seconds. -/
def truncMinute (t : PDateTime) : PDateTime := { t with second := 0 }

def pad2 (n : Nat) : String := if n < 10 then "0" ++ toString n else toString n

def pad4 (n : Nat) : String :=
  if n < 10 then "000" ++ toString n
  else if n < 100 then "00" ++ toString n
  else if n < 1000 then "0" ++ toString n
  else toString n

/-- `.dt.strftime("%Y-%m-%d %H:%M:%S")`. -/
def strftimeDT (t : PDateTime) : String :=
  pad4 t.year ++ "-" ++ pad2 t.month ++ "-" ++ pad2 t.day ++ " " ++
    pad2 t.hour ++ ":" ++ pad2 t.minute ++ ":" ++ pad2 t.second

/-- `(date_val.month - 1) // 3 + 1` / `.dt.quarter()`. -/
def quarterOf (t : PDateTime) : Nat := (t.month - 1) / 3 + 1

/-! ## The streaming transform (etl_processor.py lines 523-648)

One input row with the important columns after renaming/selection, and
its transformed output row.  The final `cast(pl.Float64)` of the power
column is floating point and is not modelled; `IMPORT_ACTIVE_POWER` is
carried as its whitespace-stripped string, which no claim inspects. -/

structure RawRow where
  METER_ID : String
  DATA_TIME : String
  IMPORT_ACTIVE_POWER : String
deriving DecidableEq

structure OutRow where
  METER_ID : String
  DATA_TIME : Option PDateTime
  DATA_TIME_STR : Option String
  QUARTER : Option String
  IMPORT_ACTIVE_POWER : String
  ROW_HASH : Option Nat
deriving DecidableEq

/-- Per-row semantics of `build_lazy_pipeline` steps 3-6: parse and
minute-truncate `DATA_TIME`, derive `DATA_TIME_STR` and `QUARTER`
(file-level label when known, else per-row), strip the power column,
and, when enabled, compute
`ROW_HASH = hash(concat(METER_ID, DATA_TIME_STR)) % (2^63 - 1)`
(etl_processor.py lines 630-646).  The polars hash function is the
parameter `hashFn`. -/
def transformRow (hashFn : String → Nat) (rowHashEnabled : Bool)
    (quarterStr : Option String) (r : RawRow) : OutRow :=
  let dt := (parseDataTime r.DATA_TIME).map truncMinute
  let dts := dt.map strftimeDT
  let q := match quarterStr with
    | some qs => some qs
    | none => dt.map (fun t => toString t.year ++ "-Q" ++ toString (quarterOf t))
  let rh := if rowHashEnabled then
      dts.map (fun s => hashFn (r.METER_ID ++ s) % (2 ^ 63 - 1))
    else none
  ⟨r.METER_ID, dt, dts, q, pyStrip r.IMPORT_ACTIVE_POWER, rh⟩

/-- The lazy pipeline applied to a whole file: `with_columns` never
drops or adds rows, so the plan is a `map` over the scanned rows. -/
def transformRows (hashFn : String → Nat) (rowHashEnabled : Bool)
    (quarterStr : Option String) (rows : List RawRow) : List OutRow :=
  rows.map (transformRow hashFn rowHashEnabled quarterStr)

/-! ## Post-write validation (etl_processor.py lines 651-729)

`process_file_streaming` sinks the lazy plan to a parquet file, checks
the file exists, reads back the row count, and on a zero count removes
the file and raises a distinct zero-row `RuntimeError`; the surrounding
`try` turns any error into a `False` return. -/

inductive StreamError where
  | sinkFailure
  | zeroRowOutput
deriving DecidableEq

structure FsState where
  outputExists : Bool
  outputRows : Nat
deriving DecidableEq

/-- The body of the `try` block after the plan is built: `sinkOk`
injects an ordinary I/O failure of `sink_parquet` (in which case no
output file appears), `pipelineRows` is the row count the plan
produces. -/
def sinkAndValidate (sinkOk : Bool) (pipelineRows : Nat) :
    Except StreamError Unit × FsState :=
  if !sinkOk then
    (.error .sinkFailure, ⟨false, 0⟩)
  else if pipelineRows == 0 then
    -- os.remove(output_path) then raise the zero-row RuntimeError
    (.error .zeroRowOutput, ⟨false, 0⟩)
  else
    (.ok (), ⟨true, pipelineRows⟩)

/-- `process_file_streaming`'s observable outcome: the except handler
maps any raised error to a `False` return. -/
def process_file_streaming (sinkOk : Bool) (pipelineRows : Nat) :
    Bool × FsState :=
  match sinkAndValidate sinkOk pipelineRows with
  | (.ok _, fs) => (true, fs)
  | (.error _, fs) => (false, fs)

/-! ## The deduplicating loader (cloud_loader.py lines 96-248)

`load_gcs_to_bigquery` runs inside one `try`: load the parquet into a
fresh temp table (WRITE_TRUNCATE), fail hard on zero loaded rows,
discover the temp schema, create the target with partitioning if
missing, insert (with `NOT EXISTS` dedup on ROW_HASH when the target
exists and the column is present), and only then — still inside the
`try`, with no `finally` — delete the temp table.  The `except` block
builds a failed stats record and returns without touching the temp
table.  External failures are injected through `failAt`. -/

structure BQRow where
  rowHash : Nat
  payload : String
deriving DecidableEq

/-- `WHERE NOT EXISTS (SELECT 1 FROM target T WHERE T.ROW_HASH =
S.ROW_HASH)`: the staged rows whose hash is absent from the target. -/
def dedupFilter (staged target : List BQRow) : List BQRow :=
  staged.filter (fun s => !(target.any (fun t => t.rowHash == s.rowHash)))

inductive LoadStep where
  | loadJob
  | schemaDiscovery
  | createTable
  | insertStep
deriving DecidableEq

/-- The warehouse state one load attempt can touch: its temp table
(with contents) if it exists, and the target table's rows if it
exists. -/
structure BQState where
  temp : Option (List BQRow)
  target : Option (List BQRow)
deriving DecidableEq

/-- The fields of the emitted `StageStats` record that the claims
inspect. -/
structure LoadStats where
  rows_input : Nat
  rows_output : Nat
  rows_duplicates_skipped : Nat
  status : String
deriving DecidableEq

structure LoadResult where
  success : Bool
  stats : LoadStats
deriving DecidableEq

def failedStats (rowsInput : Nat) : LoadStats := ⟨rowsInput, 0, 0, "failed"⟩

/-- `load_gcs_to_bigquery` (cloud_loader.py lines 96-248) with failure
injection: `failAt = some step` makes that step raise.  `hasRowHash`
says whether `"ROW_HASH" in temp_columns`.  `staged` is the content of
the parquet file at the GCS URI. -/
def load_gcs_to_bigquery (failAt : Option LoadStep) (hasRowHash : Bool)
    (staged : List BQRow) (st : BQState) : LoadResult × BQState :=
  if failAt = some .loadJob then
    -- the load job itself failed: no temp table materializes
    (⟨false, failedStats 0⟩, st)
  else
    -- load_table_from_uri + result(): temp table now holds the file
    let st1 : BQState := ⟨some staged, st.target⟩
    if staged.length = 0 then
      -- "BigQuery load completed but 0 rows loaded": raise
      (⟨false, failedStats 0⟩, st1)
    else if failAt = some .schemaDiscovery then
      (⟨false, failedStats staged.length⟩, st1)
    else
      match st.target with
      | none =>
        if failAt = some .createTable then
          (⟨false, failedStats staged.length⟩, st1)
        else if failAt = some .insertStep then
          -- table created, insert raised
          (⟨false, failedStats staged.length⟩, ⟨some staged, some []⟩)
        else
          (⟨true, ⟨staged.length, staged.length, 0, "success"⟩⟩,
           ⟨none, some staged⟩)
      | some tgt =>
        if failAt = some .insertStep then
          (⟨false, failedStats staged.length⟩, st1)
        else if hasRowHash then
          let newRows := dedupFilter staged tgt
          (⟨true, ⟨staged.length, newRows.length,
                   staged.length - newRows.length, "success"⟩⟩,
           ⟨none, some (tgt ++ newRows)⟩)
        else
          -- append-only fallback, no dedup
          (⟨true, ⟨staged.length, staged.length, 0, "success"⟩⟩,
           ⟨none, some (tgt ++ staged)⟩)

/-! ## The cloud loader run (cloud_loader.py lines 263-337)

`main` uploads each parquet file, calls `load_gcs_to_bigquery`, appends
the returned stats whether or not the load succeeded, keeps going after
failures, writes the stats batch, and returns 0 unconditionally.  (The
ETL-stage stats merged from `_etl_stats.json` are independent of the
claims and not modelled.) -/

structure FileSpec where
  uploadOk : Bool
  failAt : Option LoadStep
  hasRowHash : Bool
  staged : List BQRow
deriving DecidableEq

/-- The per-file loop body: files whose upload fails produce no stats
record; all others are loaded against the evolving warehouse state. -/
def processFiles (st : BQState) : List FileSpec → List LoadStats × BQState
  | [] => ([], st)
  | f :: rest =>
    if f.uploadOk then
      let r := load_gcs_to_bigquery f.failAt f.hasRowHash f.staged st
      let more := processFiles r.2 rest
      (r.1.stats :: more.1, more.2)
    else
      processFiles st rest

/-- `cloud_loader.main`: missing local directory returns 1; otherwise
every file is processed and the function returns 0. -/
def cloudLoaderMain (dirExists : Bool) (files : List FileSpec)
    (st : BQState) : Nat × List LoadStats :=
  if !dirExists then (1, [])
  else ((0 : Nat), (processFiles st files).1)

/-- The largest candidate-separator occurrence count in the header
line. -/
def maxSepCount (line : String) : Nat :=
  Nat.max (line.data.count ',')
    (Nat.max (line.data.count ';')
      (Nat.max (line.data.count '\t') (line.data.count '|')))

/-! ## Theorems -/

set_option maxHeartbeats 2000000 in
/-- C10: whenever the maximal separator count is nonzero — in
particular when two or more candidates are tied at it — separator
detection returns the candidate earliest in the fixed order comma,
semicolon, tab, pipe among those achieving the maximum; the result
depends on the first line alone. -/
theorem c10_separator_tie_break (line : String) (h : 0 < maxSepCount line) :
    detect_csv_separator line =
      (if line.data.count ',' = maxSepCount line then ','
       else if line.data.count ';' = maxSepCount line then ';'
       else if line.data.count '\t' = maxSepCount line then '\t'
       else '|') := by
  unfold detect_csv_separator maxSepCount at *
  simp only [List.foldl_cons, List.foldl_nil]
  split_ifs <;>
    first
      | rfl
      | (simp only [Nat.max_def] at *; split_ifs at * <;> omega)

/-- C10 witness: a first line with equally many commas and semicolons
(one each) yields the comma. -/
theorem c10_separator_tie_break_witness :
    0 < maxSepCount "a,b;c" ∧ detect_csv_separator "a,b;c" = ',' := by
  refine ⟨by decide, ?_⟩
  rw [c10_separator_tie_break "a,b;c" (by decide)]
  decide

/-- C7: raw headers equal to the canonical headers after case
normalization make the resolver return an empty mapping with
`important_only = false`, and neither oracle is called. -/
theorem c7_exact_match_no_oracle
    (orImportant : List String → OracleImportantResult)
    (orFull : List String → OracleFullResult) (current : List String)
    (h : current.map normHeader = EXPECTED_HEADERS.map normHeader) :
    determine_schema_mapping orImportant orFull current EXPECTED_HEADERS =
      ⟨.ok ⟨[], false⟩, false, false⟩ := by
  unfold determine_schema_mapping
  rw [if_pos h]

/-- C7 witness: the canonical headers themselves hit the fast path. -/
theorem c7_exact_match_no_oracle_witness :
    EXPECTED_HEADERS.map normHeader = EXPECTED_HEADERS.map normHeader ∧
    determine_schema_mapping stubImportantOracle stubAbortOracle
        EXPECTED_HEADERS EXPECTED_HEADERS =
      ⟨.ok ⟨[], false⟩, false, false⟩ :=
  ⟨rfl, c7_exact_match_no_oracle stubImportantOracle stubAbortOracle
    EXPECTED_HEADERS rfl⟩

/-- C5: a transform whose pipeline produces zero output rows fails with
the distinct zero-row error (a different error than an ordinary I/O
sink failure), the just-written file is removed before the failure is
reported, and `process_file_streaming` returns failure. -/
theorem c5_zero_row_guard (rows : Nat) (h : rows = 0) :
    (sinkAndValidate true rows).1 = .error .zeroRowOutput ∧
    (sinkAndValidate true rows).2.outputExists = false ∧
    StreamError.zeroRowOutput ≠ StreamError.sinkFailure ∧
    (process_file_streaming true rows).1 = false := by
  subst h; decide

/-- C5 witness: the guard at a concrete zero-row pipeline. -/
theorem c5_zero_row_guard_witness :
    (sinkAndValidate true 0).1 = .error .zeroRowOutput ∧
    (sinkAndValidate true 0).2.outputExists = false ∧
    StreamError.zeroRowOutput ≠ StreamError.sinkFailure ∧
    (process_file_streaming true 0).1 = false :=
  c5_zero_row_guard 0 rfl

/-- C3: ROW_HASH is a pure function of the device id and the
minute-truncated, string-formatted timestamp only — two rows with the
same METER_ID whose timestamps parse to the same minute get the same
ROW_HASH regardless of their power values, timestamp formatting, or
quarter labels — and every produced ROW_HASH lies in [0, 2^63 - 1). -/
theorem c3_row_hash_pure (hashFn : String → Nat) (q1 q2 : Option String)
    (r1 r2 : RawRow) (t1 t2 : PDateTime)
    (hm : r1.METER_ID = r2.METER_ID)
    (h1 : parseDataTime r1.DATA_TIME = some t1)
    (h2 : parseDataTime r2.DATA_TIME = some t2)
    (ht : truncMinute t1 = truncMinute t2) :
    (transformRow hashFn true q1 r1).ROW_HASH =
      (transformRow hashFn true q2 r2).ROW_HASH ∧
    ∀ v, (transformRow hashFn true q1 r1).ROW_HASH = some v →
      v < 2 ^ 63 - 1 := by
  constructor
  · simp [transformRow, h1, h2, hm, ht]
  · intro v hv
    simp [transformRow, h1] at hv
    omega

/-- C3 witness: same meter and minute, different fractional-second
formatting and power values, concrete hash function. -/
theorem c3_row_hash_pure_witness :
    parseDataTime "2025-08-02 00:30:00.4600000" = some ⟨2025, 8, 2, 0, 30, 0⟩ ∧
    parseDataTime "2025-08-02 00:30:15" = some ⟨2025, 8, 2, 0, 30, 15⟩ ∧
    ((transformRow String.length true none
        ⟨"M1", "2025-08-02 00:30:00.4600000", "1.5"⟩).ROW_HASH =
      (transformRow String.length true (some "2025-Q3")
        ⟨"M1", "2025-08-02 00:30:15", "2.75"⟩).ROW_HASH ∧
     ∀ v, (transformRow String.length true none
        ⟨"M1", "2025-08-02 00:30:00.4600000", "1.5"⟩).ROW_HASH = some v →
       v < 2 ^ 63 - 1) :=
  ⟨by decide, by decide,
   c3_row_hash_pure String.length none (some "2025-Q3")
     ⟨"M1", "2025-08-02 00:30:00.4600000", "1.5"⟩
     ⟨"M1", "2025-08-02 00:30:15", "2.75"⟩
     ⟨2025, 8, 2, 0, 30, 0⟩ ⟨2025, 8, 2, 0, 30, 15⟩
     rfl (by decide) (by decide) (by decide)⟩

/-- C1 counterexample: an attempt whose dedup insert step raises
terminates in failure with the temporary staging table still existing —
cleanup did not run on this terminal transition, so it is not
unconditional. -/
theorem c1_cleanup_counterexample :
    (load_gcs_to_bigquery (some .insertStep) true [⟨1, "x"⟩]
        ⟨none, some []⟩).1.success = false ∧
    (load_gcs_to_bigquery (some .insertStep) true [⟨1, "x"⟩]
        ⟨none, some []⟩).2.temp = some [⟨1, "x"⟩] := by
  decide

/-- C1 amended: the temporary table is deleted at the end of every
attempt that terminates in success; on failure the except path returns
without deleting it (cleanup is success-gated, not unconditional). -/
theorem c1_cleanup_on_success (failAt : Option LoadStep) (hasRowHash : Bool)
    (staged : List BQRow) (st : BQState)
    (h : (load_gcs_to_bigquery failAt hasRowHash staged st).1.success = true) :
    (load_gcs_to_bigquery failAt hasRowHash staged st).2.temp = none := by
  unfold load_gcs_to_bigquery at h ⊢
  split_ifs at h ⊢ <;> try simp_all
  all_goals (split at h <;> simp_all)

/-- C1 amended witness: a fully successful attempt ends with no temp
table. -/
theorem c1_cleanup_on_success_witness :
    (load_gcs_to_bigquery none true [⟨1, "x"⟩]
        ⟨none, some []⟩).1.success = true ∧
    (load_gcs_to_bigquery none true [⟨1, "x"⟩] ⟨none, some []⟩).2.temp = none :=
  ⟨by decide, c1_cleanup_on_success none true [⟨1, "x"⟩] ⟨none, some []⟩ (by decide)⟩

/-- An attempt whose insert step raises always produces a failed stats
record, whatever the warehouse state. -/
theorem load_insert_fail_status (hasRowHash : Bool) (staged : List BQRow)
    (st : BQState) :
    (load_gcs_to_bigquery (some .insertStep) hasRowHash staged
        st).1.stats.status = "failed" := by
  unfold load_gcs_to_bigquery
  split_ifs <;> try rfl
  all_goals (split <;> simp_all [failedStats])

/-- With every upload succeeding, the run records exactly one stats
entry per file. -/
theorem processFiles_length (files : List FileSpec) :
    ∀ st : BQState, (∀ f ∈ files, f.uploadOk = true) →
      (processFiles st files).1.length = files.length := by
  induction files with
  | nil => intro st _; rfl
  | cons f rest ih =>
    intro st hall
    have hf : f.uploadOk = true := hall f (by simp)
    simp only [processFiles, hf, if_pos, List.length_cons]
    exact congrArg Nat.succ (ih _ (fun g hg => hall g (by simp [hg])))

/-- With every upload succeeding, the i-th stats entry is the stats of
the i-th file's load attempt against some intermediate warehouse
state. -/
theorem processFiles_get (files : List FileSpec) :
    ∀ (st : BQState) (i : Nat) (f : FileSpec),
      (∀ g ∈ files, g.uploadOk = true) → files[i]? = some f →
      ∃ st2, (processFiles st files).1[i]? =
        some ((load_gcs_to_bigquery f.failAt f.hasRowHash f.staged st2).1.stats) := by
  induction files with
  | nil => intro st i f _ hf; simp at hf
  | cons g rest ih =>
    intro st i f hall hf
    have hg : g.uploadOk = true := hall g (by simp)
    cases i with
    | zero =>
      simp only [List.getElem?_cons_zero, Option.some.injEq] at hf
      subst hf
      exact ⟨st, by simp [processFiles, hg]⟩
    | succ n =>
      simp only [List.getElem?_cons_succ] at hf
      obtain ⟨st2, h2⟩ := ih (load_gcs_to_bigquery g.failAt g.hasRowHash g.staged st).2
        n f (fun x hx => hall x (by simp [hx])) hf
      exact ⟨st2, by simp [processFiles, hg, h2]⟩

/-- C2 counterexample: a run whose only file's warehouse load fails
after a successful transform still returns 0 — the claimed non-zero
exit code never happens — even though the failed stats entry is
recorded. -/
theorem c2_exit_code_counterexample :
    (cloudLoaderMain true [⟨true, some .insertStep, true, [⟨1, "x"⟩]⟩]
        ⟨none, some []⟩).1 = 0 ∧
    (cloudLoaderMain true [⟨true, some .insertStep, true, [⟨1, "x"⟩]⟩]
        ⟨none, some []⟩).2 = [⟨1, 0, 0, "failed"⟩] := by
  decide

/-- C2 amended: when a file's load fails the loader keeps processing
the remaining files and records a failed stats entry for it, but the
run's return code is 0 regardless of load failures (the run is still
reported as overall success). -/
theorem c2_continue_and_record (files : List FileSpec) (st : BQState)
    (hall : ∀ f ∈ files, f.uploadOk = true) :
    (cloudLoaderMain true files st).1 = 0 ∧
    (cloudLoaderMain true files st).2.length = files.length ∧
    ∀ (i : Nat) (f : FileSpec), files[i]? = some f → f.failAt = some .insertStep →
      ∃ s, (cloudLoaderMain true files st).2[i]? = some s ∧
        s.status = "failed" := by
  refine ⟨rfl, ?_, ?_⟩
  · simpa [cloudLoaderMain] using processFiles_length files st hall
  · intro i f hf hfail
    obtain ⟨st2, h2⟩ := processFiles_get files st i f hall hf
    refine ⟨(load_gcs_to_bigquery f.failAt f.hasRowHash f.staged st2).1.stats,
      by simpa [cloudLoaderMain] using h2, ?_⟩
    rw [hfail]
    exact load_insert_fail_status f.hasRowHash f.staged st2

/-- C2 amended witness: a failing file followed by a succeeding one —
both get stats entries, the failing one marked failed, return code 0. -/
theorem c2_continue_and_record_witness :
    (cloudLoaderMain true
        [⟨true, some .insertStep, true, [⟨1, "x"⟩]⟩,
         ⟨true, none, true, [⟨2, "y"⟩]⟩] ⟨none, some []⟩).1 = 0 ∧
    (cloudLoaderMain true
        [⟨true, some .insertStep, true, [⟨1, "x"⟩]⟩,
         ⟨true, none, true, [⟨2, "y"⟩]⟩] ⟨none, some []⟩).2.length = 2 ∧
    ∀ (i : Nat) (f : FileSpec),
      ([⟨true, some .insertStep, true, [⟨1, "x"⟩]⟩,
        ⟨true, none, true, [⟨2, "y"⟩]⟩] : List FileSpec)[i]? = some f →
      f.failAt = some .insertStep →
      ∃ s, (cloudLoaderMain true
          [⟨true, some .insertStep, true, [⟨1, "x"⟩]⟩,
           ⟨true, none, true, [⟨2, "y"⟩]⟩] ⟨none, some []⟩).2[i]? = some s ∧
        s.status = "failed" :=
  c2_continue_and_record
    [⟨true, some .insertStep, true, [⟨1, "x"⟩]⟩,
     ⟨true, none, true, [⟨2, "y"⟩]⟩] ⟨none, some []⟩ (by decide)

/-- After one dedup insert, every staged row's hash is present in the
target, so a repeated dedup filter of the same staged rows is empty. -/
theorem dedupFilter_self_absorbed (staged tgt : List BQRow) :
    dedupFilter staged (tgt ++ dedupFilter staged tgt) = [] := by
  unfold dedupFilter
  rw [List.filter_eq_nil_iff]
  intro a ha
  have hX : (tgt ++ staged.filter
      (fun s => !(tgt.any (fun t => t.rowHash == s.rowHash)))).any
        (fun t => t.rowHash == a.rowHash) = true := by
    rw [List.any_append, Bool.or_eq_true]
    by_cases h : tgt.any (fun t => t.rowHash == a.rowHash) = true
    · exact .inl h
    · exact .inr (List.any_eq_true.mpr
        ⟨a, List.mem_filter.mpr ⟨ha, by simp [h]⟩, by simp⟩)
  simp [hX]

/-- C4: loading the same staged file into the same existing target
table (ROW_HASH column present) twice leaves the target exactly as
after one load: the second attempt succeeds, inserts zero rows, and
reports every loaded row as a skipped duplicate. -/
theorem c4_idempotent_load (staged tgt : List BQRow) (h : staged ≠ []) :
    (load_gcs_to_bigquery none true staged
        (load_gcs_to_bigquery none true staged ⟨none, some tgt⟩).2).2.target =
      (load_gcs_to_bigquery none true staged ⟨none, some tgt⟩).2.target ∧
    (load_gcs_to_bigquery none true staged
        (load_gcs_to_bigquery none true staged ⟨none, some tgt⟩).2).1.success
      = true ∧
    (load_gcs_to_bigquery none true staged
        (load_gcs_to_bigquery none true staged
          ⟨none, some tgt⟩).2).1.stats.rows_output = 0 ∧
    (load_gcs_to_bigquery none true staged
        (load_gcs_to_bigquery none true staged
          ⟨none, some tgt⟩).2).1.stats.rows_duplicates_skipped
      = staged.length := by
  have hlen : ¬ staged.length = 0 := by
    simpa [List.length_eq_zero] using h
  have h1 : load_gcs_to_bigquery none true staged ⟨none, some tgt⟩ =
      (⟨true, ⟨staged.length, (dedupFilter staged tgt).length,
        staged.length - (dedupFilter staged tgt).length, "success"⟩⟩,
       ⟨none, some (tgt ++ dedupFilter staged tgt)⟩) := by
    unfold load_gcs_to_bigquery
    simp [hlen]
  rw [h1]
  have h2 : load_gcs_to_bigquery none true staged
      ⟨none, some (tgt ++ dedupFilter staged tgt)⟩ =
      (⟨true, ⟨staged.length, 0, staged.length, "success"⟩⟩,
       ⟨none, some (tgt ++ dedupFilter staged tgt)⟩) := by
    unfold load_gcs_to_bigquery
    simp [hlen, dedupFilter_self_absorbed]
  rw [h2]
  exact ⟨rfl, rfl, rfl, rfl⟩

/-- C4 witness: loading one row twice into an initially populated
target. -/
theorem c4_idempotent_load_witness :
    [(⟨5, "a"⟩ : BQRow)] ≠ [] ∧
    ((load_gcs_to_bigquery none true [⟨5, "a"⟩]
        (load_gcs_to_bigquery none true [⟨5, "a"⟩]
          ⟨none, some [⟨7, "b"⟩]⟩).2).2.target =
      (load_gcs_to_bigquery none true [⟨5, "a"⟩]
        ⟨none, some [⟨7, "b"⟩]⟩).2.target ∧
    (load_gcs_to_bigquery none true [⟨5, "a"⟩]
        (load_gcs_to_bigquery none true [⟨5, "a"⟩]
          ⟨none, some [⟨7, "b"⟩]⟩).2).1.success = true ∧
    (load_gcs_to_bigquery none true [⟨5, "a"⟩]
        (load_gcs_to_bigquery none true [⟨5, "a"⟩]
          ⟨none, some [⟨7, "b"⟩]⟩).2).1.stats.rows_output = 0 ∧
    (load_gcs_to_bigquery none true [⟨5, "a"⟩]
        (load_gcs_to_bigquery none true [⟨5, "a"⟩]
          ⟨none, some [⟨7, "b"⟩]⟩).2).1.stats.rows_duplicates_skipped
      = [(⟨5, "a"⟩ : BQRow)].length) :=
  ⟨by decide, c4_idempotent_load [⟨5, "a"⟩] [⟨7, "b"⟩] (by decide)⟩

/-- C9: each input row is transformed in place (an output row exists at
every input index — rows are never dropped), and its `DATA_TIME` is
obtained by trying, in priority order, the fractional-seconds-stripped
full-timestamp parse, the full-timestamp parse, and the date-only
parse, minute-truncating the first success; if all three fail the field
is null while the row is kept. -/
theorem c9_timestamp_priority (hashFn : String → Nat) (en : Bool)
    (qs : Option String) (rows : List RawRow) (i : Nat) (r : RawRow)
    (hr : rows[i]? = some r) :
    (transformRows hashFn en qs rows).length = rows.length ∧
    ∃ o, (transformRows hashFn en qs rows)[i]? = some o ∧
      (∀ t, parseFullTs (stripFrac r.DATA_TIME) = some t →
        o.DATA_TIME = some (truncMinute t)) ∧
      (parseFullTs (stripFrac r.DATA_TIME) = none →
        ∀ t, parseFullTs r.DATA_TIME = some t →
          o.DATA_TIME = some (truncMinute t)) ∧
      (parseFullTs (stripFrac r.DATA_TIME) = none →
        parseFullTs r.DATA_TIME = none →
        ∀ t, parseDateOnly r.DATA_TIME = some t →
          o.DATA_TIME = some (truncMinute t)) ∧
      (parseFullTs (stripFrac r.DATA_TIME) = none →
        parseFullTs r.DATA_TIME = none →
        parseDateOnly r.DATA_TIME = none →
        o.DATA_TIME = none) := by
  refine ⟨by simp [transformRows], ⟨transformRow hashFn en qs r, ?_, ?_, ?_, ?_, ?_⟩⟩
  · simp [transformRows, hr]
  · intro t h1
    simp [transformRow, parseDataTime, h1]
  · intro h1 t h2
    simp [transformRow, parseDataTime, h1, h2]
  · intro h1 h2 t h3
    simp [transformRow, parseDataTime, h1, h2, h3]
  · intro h1 h2 h3
    simp [transformRow, parseDataTime, h1, h2, h3]

/-- C9 witness: a file with one full-timestamp row, one
fractional-seconds row, one date-only row, and one unparseable row —
all four are kept, the last with a null timestamp. -/
theorem c9_timestamp_priority_witness :
    ([⟨"M1", "2025-08-02 00:30:15", "1"⟩,
      ⟨"M1", "not a date", "4"⟩] : List RawRow)[1]? =
        some ⟨"M1", "not a date", "4"⟩ ∧
    ((transformRows String.length true none
        [⟨"M1", "2025-08-02 00:30:15", "1"⟩,
         ⟨"M1", "not a date", "4"⟩]).length = 2 ∧
     ∃ o, (transformRows String.length true none
        [⟨"M1", "2025-08-02 00:30:15", "1"⟩,
         ⟨"M1", "not a date", "4"⟩])[1]? = some o ∧
      (∀ t, parseFullTs (stripFrac "not a date") = some t →
        o.DATA_TIME = some (truncMinute t)) ∧
      (parseFullTs (stripFrac "not a date") = none →
        ∀ t, parseFullTs "not a date" = some t →
          o.DATA_TIME = some (truncMinute t)) ∧
      (parseFullTs (stripFrac "not a date") = none →
        parseFullTs "not a date" = none →
        ∀ t, parseDateOnly "not a date" = some t →
          o.DATA_TIME = some (truncMinute t)) ∧
      (parseFullTs (stripFrac "not a date") = none →
        parseFullTs "not a date" = none →
        parseDateOnly "not a date" = none →
        o.DATA_TIME = none)) :=
  ⟨by decide,
   c9_timestamp_priority String.length true none
     [⟨"M1", "2025-08-02 00:30:15", "1"⟩, ⟨"M1", "not a date", "4"⟩]
     1 ⟨"M1", "not a date", "4"⟩ (by decide)⟩

/-- A successful header lookup returns one of the actual headers. -/
theorem headerLookup_mem {headers : List String} {k a : String}
    (h : headerLookup headers k = some a) : a ∈ headers :=
  List.mem_reverse.mp (List.mem_of_find?_eq_some h)

/-- The deterministic alias matcher succeeds when every important
column has some variation matching some header case-insensitively. -/
theorem tryDet_isSome (headers : List String) :
    ∀ cols : List String,
      (∀ c ∈ cols, ∃ v ∈ column_variations c,
        (headerLookup headers (normHeader v)).isSome) →
      (try_deterministic_important_mapping headers cols).isSome := by
  intro cols
  induction cols with
  | nil => intro _; simp [try_deterministic_important_mapping]
  | cons c rest ih =>
    intro hall
    obtain ⟨v, hv, hs⟩ := hall c (by simp)
    have hfm : (firstVariationMatch headers (column_variations c)).isSome := by
      rw [Option.isSome_iff_ne_none]
      intro hnone
      rw [firstVariationMatch, List.findSome?_eq_none_iff] at hnone
      rw [hnone v hv] at hs
      simp at hs
    obtain ⟨actual, hact⟩ := Option.isSome_iff_exists.mp hfm
    have hrest := ih (fun c2 hc2 => hall c2 (by simp [hc2]))
    obtain ⟨m, hm⟩ := Option.isSome_iff_exists.mp hrest
    simp [try_deterministic_important_mapping, hact, hm]

/-- Every important column matched by the deterministic mapper is
covered: it is a mapped target or already a raw header verbatim. -/
theorem tryDet_covers (headers : List String) :
    ∀ (cols : List String) (m : List (String × String)),
      try_deterministic_important_mapping headers cols = some m →
      ∀ c ∈ cols, c ∈ m.map Prod.snd ∨ c ∈ headers := by
  intro cols
  induction cols with
  | nil => intro m _ c hc; simp at hc
  | cons c0 rest ih =>
    intro m hm c hc
    rw [try_deterministic_important_mapping] at hm
    cases hact : firstVariationMatch headers (column_variations c0) with
    | none => rw [hact] at hm; simp at hm
    | some actual =>
      rw [hact] at hm
      cases hrest : try_deterministic_important_mapping headers rest with
      | none => rw [hrest] at hm; simp at hm
      | some m0 =>
        rw [hrest] at hm
        simp only [Option.map_some', Option.some.injEq] at hm
        have hactmem : actual ∈ headers := by
          obtain ⟨v, _, hfv⟩ := List.exists_of_findSome?_eq_some hact
          exact headerLookup_mem hfv
        rcases List.mem_cons.mp hc with hc0 | hcr
        · subst hc0
          by_cases he : actual = c
          · subst he
            exact .inr hactmem
          · left
            rw [← hm]
            simp [he]
        · rcases ih m0 hrest c hcr with hin | hin
          · left
            rw [← hm]
            split_ifs with he
            · exact hin
            · simp only [List.map_cons, List.mem_cons]
              exact .inr hin
          · exact .inr hin

/-- The oracle important-columns branch only ever returns
`important_only = true`. -/
theorem importantOracleStep_important_only
    (ir : OracleImportantResult) (headers : List String) (r : SchemaResult)
    (h : importantOracleStep ir headers = some r) : r.important_only = true := by
  unfold importantOracleStep at h
  split_ifs at h <;> simp_all
  · exact congrArg SchemaResult.important_only h.symm
  · exact congrArg SchemaResult.important_only h.symm

/-- A list whose dedup has full length is duplicate-free. -/
theorem nodup_of_dedup_length {l : List String}
    (h : l.dedup.length = l.length) : l.Nodup := by
  have heq : l.dedup = l := (List.dedup_sublist l).eq_of_length h
  rw [← heq]
  exact l.nodup_dedup

/-- The full-schema oracle branch returns `.ok` only when the mapped
headers carry no duplicates, and always with `important_only = false`. -/
theorem fullOracleStep_ok (v : OracleFullResult)
    (headers expected : List String) (r : SchemaResult)
    (h : fullOracleStep v headers expected = .ok r) :
    (applyMapping r.mapping headers).Nodup ∧ r.important_only = false := by
  unfold fullOracleStep at h
  split_ifs at h <;>
    first
      | exact Except.noConfusion h
      | (have hr := Except.ok.inj h
         subst hr
         exact ⟨nodup_of_dedup_length (by dsimp only; omega), rfl⟩)

/-- An empty mapping leaves the headers unchanged. -/
theorem applyMapping_nil (headers : List String) :
    applyMapping [] headers = headers := by
  simp [applyMapping, dictGet, dictFind?, List.find?]

/-- C6 counterexample: headers `DATA_TIME` and `data_time` both
collapse onto `DATA_TIME` under the mapping the deterministic path
returns, yet the resolver returns it instead of failing (the duplicate
check is skipped on the important-columns path). -/
theorem c6_duplicate_counterexample :
    (determine_schema_mapping stubImportantOracle stubAbortOracle
        ["DATA_TIME", "data_time", "METER_ID", "IMPORT_ACTIVE_POWER"]
        EXPECTED_HEADERS).result =
      .ok ⟨[("data_time", "DATA_TIME")], true⟩ ∧
    ¬ (applyMapping [("data_time", "DATA_TIME")]
        ["DATA_TIME", "data_time", "METER_ID", "IMPORT_ACTIVE_POWER"]).Nodup := by
  decide

/-- C6 amended: the duplicate-resulting-name check guards only the
results with `important_only = false` (the exact-match fast path and
the oracle full-schema path): any such result maps the raw headers to
duplicate-free names.  Results of the important-columns paths
(`important_only = true`) are returned without that validation and can
collapse two raw columns (see the counterexample). -/
theorem c6_no_duplicates_full_path
    (orImportant : List String → OracleImportantResult)
    (orFull : List String → OracleFullResult)
    (current : List String) (r : SchemaResult)
    (h : (determine_schema_mapping orImportant orFull current
        EXPECTED_HEADERS).result = .ok r)
    (h2 : r.important_only = false) :
    (applyMapping r.mapping current).Nodup := by
  unfold determine_schema_mapping at h
  by_cases hfast : current.map normHeader = EXPECTED_HEADERS.map normHeader
  · rw [if_pos hfast] at h
    simp only [Except.ok.injEq] at h
    rw [← h, applyMapping_nil]
    have hnd : (current.map normHeader).Nodup := by
      rw [hfast]; decide
    exact hnd.of_map
  · rw [if_neg hfast] at h
    cases hdet : try_deterministic_important_mapping current IMPORTANT_COLUMNS with
    | some m =>
      rw [hdet] at h
      simp only [Except.ok.injEq] at h
      rw [← h] at h2
      simp at h2
    | none =>
      rw [hdet] at h
      cases hio : importantOracleStep (orImportant current) current with
      | some r0 =>
        rw [hio] at h
        simp only [Except.ok.injEq] at h
        have := importantOracleStep_important_only (orImportant current)
          current r0 hio
        rw [← h] at h2
        rw [h2] at this
        simp at this
      | none =>
        rw [hio] at h
        exact (fullOracleStep_ok (orFull current) current EXPECTED_HEADERS r h).1

/-- Headers reaching the full-schema oracle path: the timestamp column
has an unrecognized name, so the deterministic and important-columns
oracle steps fail and the rename oracle is consulted. -/
def weirdHeaders : List String :=
  ["METER_ID", "ID", "METER_NO", "WEIRD_TS",
   "IMPORT_ACTIVE_POWER", "IMPORT_REACTIVE_POWER", "IMPORT_APPARENT_POWER",
   "REACTIVE_POWER_IMPORT", "EXPORT_ACTIVE_POWER", "EXPORT_REACTIVE_POWER",
   "EXPORT_APPARENT_POWER", "REACTIVE_POWER_EXPORT", "IMPORT_FACTOR_POWER",
   "EXPORT_FACTOR_POWER", "STATUS"]

/-- C6 amended witness: a concrete run through the full-schema path
yields a duplicate-free mapped header list. -/
theorem c6_no_duplicates_full_path_witness :
    (determine_schema_mapping stubImportantOracle stubRenameOracle
        weirdHeaders EXPECTED_HEADERS).result =
      .ok ⟨[("WEIRD_TS", "DATA_TIME")], false⟩ ∧
    (applyMapping [("WEIRD_TS", "DATA_TIME")] weirdHeaders).Nodup :=
  ⟨by decide,
   c6_no_duplicates_full_path stubImportantOracle stubRenameOracle
     weirdHeaders ⟨[("WEIRD_TS", "DATA_TIME")], false⟩ (by decide) rfl⟩

/-- C8 counterexample: the canonical headers themselves contain a known
alias for every important column (each important column's own name),
yet the resolver returns `important_only = false` through the
exact-match fast path, not an important-columns mapping. -/
theorem c8_alias_counterexample :
    (∀ c ∈ IMPORTANT_COLUMNS, ∃ v ∈ column_variations c,
      ∃ hh ∈ EXPECTED_HEADERS, normHeader hh = normHeader v) ∧
    (determine_schema_mapping stubImportantOracle stubAbortOracle
        EXPECTED_HEADERS EXPECTED_HEADERS).result = .ok ⟨[], false⟩ := by
  decide

/-- C8 amended: for raw headers that contain (case-insensitively) a
known alias for every important column and are not case-equal to the
full canonical header list, the resolver returns the deterministic
alias-table mapping with `important_only = true`, calls no oracle, and
every important column is covered (it is a mapped target or already a
raw header verbatim). -/
theorem c8_deterministic_alias_mapping
    (orImportant : List String → OracleImportantResult)
    (orFull : List String → OracleFullResult) (current : List String)
    (hAlias : ∀ c ∈ IMPORTANT_COLUMNS, ∃ v ∈ column_variations c,
      ∃ hh ∈ current, normHeader hh = normHeader v)
    (hNe : current.map normHeader ≠ EXPECTED_HEADERS.map normHeader) :
    ∃ m, try_deterministic_important_mapping current IMPORTANT_COLUMNS = some m ∧
      determine_schema_mapping orImportant orFull current EXPECTED_HEADERS =
        ⟨.ok ⟨m, true⟩, false, false⟩ ∧
      ∀ c ∈ IMPORTANT_COLUMNS, c ∈ m.map Prod.snd ∨ c ∈ current := by
  have hLk : ∀ c ∈ IMPORTANT_COLUMNS, ∃ v ∈ column_variations c,
      (headerLookup current (normHeader v)).isSome := by
    intro c hc
    obtain ⟨v, hv, hh, hmem, heq⟩ := hAlias c hc
    refine ⟨v, hv, List.find?_isSome.mpr ⟨hh, List.mem_reverse.mpr hmem, ?_⟩⟩
    simp [heq]
  obtain ⟨m, hm⟩ := Option.isSome_iff_exists.mp
    (tryDet_isSome current IMPORTANT_COLUMNS hLk)
  refine ⟨m, hm, ?_, tryDet_covers current IMPORTANT_COLUMNS m hm⟩
  unfold determine_schema_mapping
  rw [if_neg hNe, hm]

/-- C8 amended witness: headers renaming all three important columns
through known aliases. -/
theorem c8_deterministic_alias_mapping_witness :
    (∀ c ∈ IMPORTANT_COLUMNS, ∃ v ∈ column_variations c,
      ∃ hh ∈ ["MTR_ID", "READING_DATETIME", "ACTIVE_IMP_POWER"],
        normHeader hh = normHeader v) ∧
    ∃ m, try_deterministic_important_mapping
        ["MTR_ID", "READING_DATETIME", "ACTIVE_IMP_POWER"] IMPORTANT_COLUMNS
        = some m ∧
      determine_schema_mapping stubImportantOracle stubAbortOracle
          ["MTR_ID", "READING_DATETIME", "ACTIVE_IMP_POWER"] EXPECTED_HEADERS =
        ⟨.ok ⟨m, true⟩, false, false⟩ ∧
      ∀ c ∈ IMPORTANT_COLUMNS, c ∈ m.map Prod.snd ∨
        c ∈ ["MTR_ID", "READING_DATETIME", "ACTIVE_IMP_POWER"] :=
  ⟨by decide,
   c8_deterministic_alias_mapping stubImportantOracle stubAbortOracle
     ["MTR_ID", "READING_DATETIME", "ACTIVE_IMP_POWER"]
     (by decide) (by decide)⟩

end Mosques
